import Mathlib

/-!
Shallow embedding of `.github/build/filename.py` (XTLS/Xray-core).

The script binds `OS = sys.argv[1]`, `ARCH = sys.argv[2]`, `ARM = sys.argv[3]`,
`MISP = sys.argv[4]`, then an `if/elif/else` on the emptiness of `ARM` and
`MISP` executes exactly one `print` of a `str.format` result.  An out-of-range
index raises an uncaught `IndexError` before anything is printed, and the
process exits with a nonzero code; otherwise it exits with code 0.
-/

namespace XrayFilename

/-- Model of one Python `print(s)` statement: the single stdout line it emits. -/
def pr (s : String) : List String := [s]

/-- The `if/elif/else` body of the script: the stdout lines produced once the
four variables are bound.  Each branch embeds its `str.format` call as plain
concatenation of the template pieces with the interpolated arguments. -/
def body (OS ARCH ARM MISP : String) : List String :=
  if ARM ≠ "" then pr ("Xray-" ++ OS ++ "-armv" ++ ARM)
  else if MISP ≠ "" then pr ("Xray-" ++ OS ++ "-" ++ ARCH ++ "-" ++ MISP)
  else pr ("Xray-" ++ OS ++ "-" ++ ARCH)

/-- The whole script run on the full `sys.argv` (index 0 is the script name).
`none` models the uncaught `IndexError` raised by the sequential assignments
`OS = sys.argv[1]`, …, `MISP = sys.argv[4]` when an index is out of range;
`some lines` models a run that completes having printed `lines`. -/
def runScript (argv : List String) : Option (List String) := do
  let OS ← argv[1]?
  let ARCH ← argv[2]?
  let ARM ← argv[3]?
  let MISP ← argv[4]?
  pure (body OS ARCH ARM MISP)

/-- Lines written to stdout by the process: empty when it dies on the
`IndexError`, because all four assignments precede every `print`. -/
def stdoutLines (argv : List String) : List String :=
  (runScript argv).getD []

/-- Process exit code: `0` when the script runs to completion, `1` for the
uncaught `IndexError`. -/
def exitCode (argv : List String) : Nat :=
  match runScript argv with
  | some _ => 0
  | none => 1

/-- Claim C1: when the `arm` argument is non-empty the script prints
`Xray-{os}-armv{arm}`, for every `os`, `arch` and `variant` and any extra
trailing arguments: the arm branch takes precedence and neither `arch` nor
`variant` influence the output. -/
theorem arm_branch_precedence (s OS ARCH ARM MISP : String)
    (rest : List String) (h : ARM ≠ "") :
    runScript (s :: OS :: ARCH :: ARM :: MISP :: rest) =
      some ["Xray-" ++ OS ++ "-armv" ++ ARM] := by
  simp [runScript, body, pr, h]

/-- Witness for C1 at a concrete input. -/
theorem arm_branch_precedence_w :
    runScript ["f", "linux", "amd64", "8", "v1"] =
      some ["Xray-linux-armv8"] :=
  arm_branch_precedence "f" "linux" "amd64" "8" "v1" [] (by decide)

/-- Claim C2: when `arm` is empty and `variant` is non-empty the script
prints `Xray-{os}-{arch}-{variant}`, for every `os` and `arch`. -/
theorem variant_branch (s OS ARCH MISP : String)
    (rest : List String) (h : MISP ≠ "") :
    runScript (s :: OS :: ARCH :: "" :: MISP :: rest) =
      some ["Xray-" ++ OS ++ "-" ++ ARCH ++ "-" ++ MISP] := by
  simp [runScript, body, pr, h]

/-- Witness for C2 at a concrete input. -/
theorem variant_branch_w :
    runScript ["f", "darwin", "amd64", "", "v8"] =
      some ["Xray-darwin-amd64-v8"] :=
  variant_branch "f" "darwin" "amd64" "v8" [] (by decide)

/-- Claim C3: when both `arm` and `variant` are empty the script prints
`Xray-{os}-{arch}`, for every `os` and `arch`. -/
theorem default_branch (s OS ARCH : String) (rest : List String) :
    runScript (s :: OS :: ARCH :: "" :: "" :: rest) =
      some ["Xray-" ++ OS ++ "-" ++ ARCH] := by
  simp [runScript, body, pr]

/-- Claim C4: with fewer than four positional arguments the script fails
(models the `IndexError`), writes nothing to stdout and exits nonzero, and
this is the only error condition. -/
theorem fewer_args_fatal (s : String) (args : List String) :
    (runScript (s :: args) = none ↔ args.length < 4) ∧
      (args.length < 4 →
        stdoutLines (s :: args) = [] ∧ exitCode (s :: args) ≠ 0) := by
  match args with
  | [] => simp [runScript, stdoutLines, exitCode]
  | [a] => simp [runScript, stdoutLines, exitCode]
  | [a, b] => simp [runScript, stdoutLines, exitCode]
  | [a, b, c] => simp [runScript, stdoutLines, exitCode]
  | a :: b :: c :: d :: r =>
      refine ⟨?_, ?_⟩
      · simp [runScript]
      · intro hlt
        simp at hlt
        omega

/-- Witness for C4 at a concrete input with three arguments. -/
theorem fewer_args_fatal_w :
    runScript ["f", "linux", "amd64", ""] = none ∧
      stdoutLines ["f", "linux", "amd64", ""] = [] ∧
      exitCode ["f", "linux", "amd64", ""] ≠ 0 := by
  have h := fewer_args_fatal "f" ["linux", "amd64", ""]
  exact ⟨h.1.mpr (by decide), (h.2 (by decide)).1, (h.2 (by decide)).2⟩

/-- Claim C5: with at least four arguments the script never fails, whatever
the four strings are: it produces an output and exits with code 0. -/
theorem enough_args_total (s : String) (args : List String)
    (h : 4 ≤ args.length) :
    ∃ out, runScript (s :: args) = some out ∧ exitCode (s :: args) = 0 := by
  match args with
  | [] => simp at h
  | [a] => simp at h
  | [a, b] => simp at h
  | [a, b, c] => simp at h
  | a :: b :: c :: d :: r =>
      exact ⟨body a b c d, by simp [runScript], by simp [exitCode, runScript]⟩

/-- Witness for C5 at a concrete input. -/
theorem enough_args_total_w :
    ∃ out, runScript ["f", "windows", "arm64", "", ""] = some out ∧
      exitCode ["f", "windows", "arm64", "", ""] = 0 :=
  enough_args_total "f" ["windows", "arm64", "", ""] (by decide)

/-- Claim C6: the output is a deterministic pure function of the four input
strings: two runs with identical `(os, arch, arm, variant)` produce identical
output, independent of any other state (script name, extra arguments). -/
theorem deterministic_pure (s₁ s₂ OS ARCH ARM MISP : String)
    (r₁ r₂ : List String) :
    runScript (s₁ :: OS :: ARCH :: ARM :: MISP :: r₁) =
      runScript (s₂ :: OS :: ARCH :: ARM :: MISP :: r₂) := by
  simp [runScript]

/-- Claim C7: on every run with at least four arguments the script writes
exactly one line to stdout: exactly one of the three `print` statements
executes. -/
theorem single_print (s : String) (args : List String)
    (h : 4 ≤ args.length) :
    (stdoutLines (s :: args)).length = 1 := by
  match args with
  | [] => simp at h
  | [a] => simp at h
  | [a, b] => simp at h
  | [a, b, c] => simp at h
  | a :: b :: c :: d :: r =>
      by_cases h3 : c = "" <;> by_cases h4 : d = "" <;>
        simp [stdoutLines, runScript, body, pr, h3, h4]

/-- Witness for C7 at a concrete input. -/
theorem single_print_w :
    (stdoutLines ["f", "linux", "386", "", "v2"]).length = 1 :=
  single_print "f" ["linux", "386", "", "v2"] (by decide)

/-- Claim C8: invoked with arguments `windows 386 7 ""` the script outputs
`Xray-windows-armv7`; the arch argument `386` does not appear in the output
(no character of it even occurs there), because the arm branch is taken. -/
theorem concrete_windows_arm7 :
    runScript ["filename.py", "windows", "386", "7", ""] =
        some ["Xray-windows-armv7"] ∧
      ∀ ch ∈ "386".toList, ch ∉ "Xray-windows-armv7".toList := by
  decide

/-- Claim C9: positional arguments beyond the fourth are silently ignored:
output and exit code equal those of the invocation truncated to four
arguments. -/
theorem extra_args_ignored (s a b c d : String) (rest : List String) :
    runScript (s :: a :: b :: c :: d :: rest) = runScript [s, a, b, c, d] ∧
      exitCode (s :: a :: b :: c :: d :: rest) = exitCode [s, a, b, c, d] := by
  constructor <;> simp [runScript, exitCode]

/-- Claim C10: for every invocation with at least four arguments the output
line starts with the literal `Xray-`, regardless of the argument values,
which are interpolated verbatim after it. -/
theorem output_starts_xray (s : String) (args : List String)
    (h : 4 ≤ args.length) :
    ∃ tl, stdoutLines (s :: args) = ["Xray-" ++ tl] := by
  match args with
  | [] => simp at h
  | [a] => simp at h
  | [a, b] => simp at h
  | [a, b, c] => simp at h
  | a :: b :: c :: d :: r =>
      by_cases h3 : c = ""
      · by_cases h4 : d = ""
        · exact ⟨a ++ "-" ++ b, by
            simp [stdoutLines, runScript, body, pr, h3, h4, String.append_assoc]⟩
        · exact ⟨a ++ "-" ++ b ++ "-" ++ d, by
            simp [stdoutLines, runScript, body, pr, h3, h4, String.append_assoc]⟩
      · exact ⟨a ++ "-armv" ++ c, by
          simp [stdoutLines, runScript, body, pr, h3, String.append_assoc]⟩

/-- Witness for C10 at a concrete input with all-empty argument strings. -/
theorem output_starts_xray_w :
    ∃ tl, stdoutLines ["f", "", "", "", ""] = ["Xray-" ++ tl] :=
  output_starts_xray "f" ["", "", "", ""] (by decide)

end XrayFilename
